import Mathlib

/-!
Verification development for `compass/utils/correct_cslc_amplitude.py`.

The script extracts the amplitude of a CSLC product, optionally applies a
thermal-noise correction and/or a radiometric normalization, and writes the
corrected amplitude to a georeferenced raster.  The numerical core
(lines 124-141 of the source) is embedded here over real-valued 2-D grids;
numpy's elementwise arithmetic, broadcasting and in-place update semantics
are modelled explicitly.  The data-access helpers imported from `h5_helpers`
are not part of the source tree, so they are modelled from the spec's
collaborator contract (section 6).
-/

set_option autoImplicit false

noncomputable section

namespace CorrectCslcAmplitude

/-- A 2-D numpy array of real-valued samples: a shape `(rows, cols)` together
with the sample at each index pair.  Radar amplitudes, noise powers and
radiometric factors are all arrays of this form in the script. -/
structure Grid where
  rows : Nat
  cols : Nat
  data : Nat → Nat → ℝ

/-- Index used by numpy broadcasting along one axis: an axis of extent 1 is
read at index 0 whatever the position in the broadcast result. -/
def broadcastIdx (n i : Nat) : Nat := if n = 1 then 0 else i

/-- Shape compatibility of two 2-D arrays for a (non in-place) numpy binary
operation: along each axis the extents agree or one of them is 1. -/
abbrev bcastCompat (a b : Grid) : Prop :=
  (a.rows = b.rows ∨ a.rows = 1 ∨ b.rows = 1) ∧
    (a.cols = b.cols ∨ a.cols = 1 ∨ b.cols = 1)

/-- Shape compatibility for an in-place numpy binary operation `a op= b`:
the result must have `a`'s shape, so each extent of `b` equals the matching
extent of `a` or is 1. -/
abbrev inplaceCompat (a b : Grid) : Prop :=
  (b.rows = a.rows ∨ b.rows = 1) ∧ (b.cols = a.cols ∨ b.cols = 1)

/-- Error raised by numpy when operand shapes cannot be broadcast together
(`ValueError: operands could not be broadcast ...`). -/
inductive NpError where
  | shapeMismatch

/-- A numpy binary ufunc on two 2-D arrays: broadcasts the operands when the
shapes are compatible and raises otherwise. -/
def npBroadcast (f : ℝ → ℝ → ℝ) (a b : Grid) : Except NpError Grid :=
  if bcastCompat a b then
    .ok ⟨max a.rows b.rows, max a.cols b.cols,
      fun i j =>
        f (a.data (broadcastIdx a.rows i) (broadcastIdx a.cols j))
          (b.data (broadcastIdx b.rows i) (broadcastIdx b.cols j))⟩
  else .error .shapeMismatch

/-- Elementwise (broadcasting) subtraction, as in
`cslc_amplitude_arr ** 2 - noise_correction_arr` (line 132). -/
def npSub (a b : Grid) : Except NpError Grid := npBroadcast (fun x y => x - y) a b

/-- Elementwise square, `cslc_amplitude_arr ** 2` (line 132): amplitude to
power domain. -/
def npSquare (a : Grid) : Grid := ⟨a.rows, a.cols, fun i j => a.data i j ^ 2⟩

/-- The masked assignment `cslc_amplitude_arr[cslc_amplitude_arr < 0.0] = 0.0`
(line 133): every strictly negative sample is replaced by zero. -/
def npClampNegToZero (a : Grid) : Grid :=
  ⟨a.rows, a.cols, fun i j => if a.data i j < 0 then 0 else a.data i j⟩

/-- Elementwise square root, `np.sqrt(cslc_amplitude_arr)` (line 134): power
back to amplitude domain. -/
def npSqrt (a : Grid) : Grid := ⟨a.rows, a.cols, fun i j => Real.sqrt (a.data i j)⟩

/-- The in-place elementwise product
`cslc_amplitude_arr *= radiometric_normalization_arr` (line 141): `b` must be
broadcastable to `a`'s shape, and the result keeps `a`'s shape. -/
def npImul (a b : Grid) : Except NpError Grid :=
  if inplaceCompat a b then
    .ok ⟨a.rows, a.cols,
      fun i j => a.data i j * b.data (broadcastIdx b.rows i) (broadcastIdx b.cols j)⟩
  else .error .shapeMismatch

/-- The correction core of `main` (lines 124-141): when noise correction is
requested, square the amplitude, subtract the noise array, clamp negative
powers to zero and take the square root (lines 131-134); when radiometric
normalization is requested, multiply the (possibly noise-corrected) amplitude
in place by the radiometric array (line 141). -/
def applyCorrections (applyNoise applyRad : Bool) (amp noise rad : Grid) :
    Except NpError Grid :=
  let step1 : Except NpError Grid :=
    if applyNoise then
      Except.map (fun p => npSqrt (npClampNegToZero p)) (npSub (npSquare amp) noise)
    else .ok amp
  match step1 with
  | .error e => .error e
  | .ok a1 => if applyRad then npImul a1 rad else .ok a1

/-- Grid with constant sample value, used for concrete instances. -/
def constGrid (r c : Nat) (x : ℝ) : Grid := ⟨r, c, fun _ _ => x⟩

/-- Whether an `Except` computation finished without raising. -/
def exceptIsOk {ε α : Type} : Except ε α → Bool
  | .ok _ => true
  | .error _ => false

/-- The six affine geotransform coefficients (origin, pixel sizes, rotation
terms) attached to a dataset. -/
abbrev Geotransform := Fin 6 → ℝ

/-- A Python value as it flows through `main`: the embedding distinguishes an
integer EPSG code from a geotransform tuple, since `main` passes one where the
other is documented. -/
inductive PyVal where
  | int (n : ℤ)
  | geotransform (g : Geotransform)

/-- The CSLC HDF5 product as the data-access collaborator exposes it: an
amplitude grid per polarization and, per internal dataset path, a
geotransform and an EPSG code. -/
structure H5File where
  amplitude : String → Grid
  geotransform : String → Geotransform
  epsg : String → ℤ

/-- The CSLC static-layer product: the stored noise lookup table (exposed
only through resampling) and the radiometric normalization raster. -/
structure StaticFile where
  resampledNoise : Nat → Nat → Geotransform → Grid
  radiometric : Grid

/-- Modelled from the spec: `h5_helpers.get_cslc_amplitude` is not under
`src/`; per the collaborator contract it extracts the named polarization's
amplitude grid from the product. -/
def get_cslc_amplitude (f : H5File) (pol : String) : Grid := f.amplitude pol

/-- Modelled from the spec: `h5_helpers.get_dataset_geotransform` is not
under `src/`; the spec's `read_geotransform` returns the affine transform
(and, per section 6, also the EPSG code) of a named internal dataset, and
`main` consumes its return directly as a geotransform (lines 120-121, 128 and
145), so it is modelled as returning the `Geotransform`. -/
def get_dataset_geotransform (f : H5File) (path : String) : Geotransform :=
  f.geotransform path

/-- Modelled from the spec: `h5_helpers.get_resampled_noise_correction` is
not under `src/`; per the collaborator contract `resample_noise_lut` returns
the stored noise lookup table resampled onto the target shape and
geotransform, so the returned grid carries the requested shape. -/
def get_resampled_noise_correction (s : StaticFile) (rows cols : Nat)
    (gt : Geotransform) : Grid :=
  ⟨rows, cols, (s.resampledNoise rows cols gt).data⟩

/-- Modelled from the spec: `h5_helpers.get_radiometric_normalization_correction`
is not under `src/`; per the collaborator contract it reads the precomputed
per-pixel gain raster from the static-layer product. -/
def get_radiometric_normalization_correction (s : StaticFile) : Grid :=
  s.radiometric

/-- The GDAL raster produced by `save_amplitude`: band 1 data, raster size,
geotransform and the projection derived from the EPSG code (the WKT string
exported by `osr` is modelled by the EPSG code it is derived from). -/
structure RasterFile where
  width : Nat
  length : Nat
  band1 : Grid
  geotransform : Geotransform
  projectionEPSG : ℤ

/-- Lines 23-56: `save_amplitude` derives a projection from the EPSG code
(lines 41-43), creates a single-band float raster sized to the array
(lines 45-49), sets the geotransform and projection (lines 51-52) and writes
the array as band 1 (line 54). -/
def save_amplitude (amplitude_arr : Grid) (geotransform_cslc : Geotransform)
    (epsg_cslc : ℤ) : RasterFile :=
  { width := amplitude_arr.cols
    length := amplitude_arr.rows
    band1 := amplitude_arr
    geotransform := geotransform_cslc
    projectionEPSG := epsg_cslc }

/-- Observable I/O steps of one invocation of `main`. -/
inductive Effect where
  | readAmplitude (pol : String)
  | readGeotransform (path : String)
  | readNoise
  | readRadiometric
  | writeOutput

/-- The arguments `main` hands to `save_amplitude` (lines 145-146): the
corrected array, the geotransform read at line 120, and — as the `epsg_cslc`
argument — the value bound at line 143. -/
structure SaveCall where
  arr : Grid
  geotransformArg : Geotransform
  epsgArg : PyVal

/-- Lines 106-146: the entry point.  With both corrections disabled it
returns immediately (lines 113-115).  Otherwise it reads the amplitude
(line 117) and the dataset geotransform (lines 119-121), applies the
requested corrections (lines 124-141, reading the resampled noise grid and
the radiometric grid as requested), re-reads the dataset geotransform and
binds it to `epsg_cslc` (line 143), and calls `save_amplitude` (lines
145-146).  A numpy shape error aborts the run before any output.  The result
is the list of performed I/O effects together with the save call, if one
happened. -/
def mainRun (f : H5File) (s : StaticFile) (dataPath pol : String)
    (applyNoise applyRad : Bool) : List Effect × Option SaveCall :=
  if applyNoise = false ∧ applyRad = false then ([], none)
  else
    let amp := get_cslc_amplitude f pol
    let path := dataPath ++ "/" ++ pol
    let gt := get_dataset_geotransform f path
    let noise := get_resampled_noise_correction s amp.rows amp.cols gt
    let rad := get_radiometric_normalization_correction s
    let effs := [Effect.readAmplitude pol, Effect.readGeotransform path]
      ++ (if applyNoise then [Effect.readNoise] else [])
      ++ (if applyRad then [Effect.readRadiometric] else [])
    match applyCorrections applyNoise applyRad amp noise rad with
    | .error _ => (effs, none)
    | .ok g =>
        (effs ++ [Effect.readGeotransform path, Effect.writeOutput],
          some { arr := g, geotransformArg := gt,
                 epsgArg := PyVal.geotransform (get_dataset_geotransform f path) })

/-- Elementwise subtraction of equal-shape arrays: the value computed at
lines 131-132 when the noise grid matches the amplitude's shape, as the
resampler contract guarantees. -/
def gridSub (a b : Grid) : Grid := ⟨a.rows, a.cols, fun i j => a.data i j - b.data i j⟩

/-- Elementwise product of equal-shape arrays: the value computed by the
in-place multiplication of line 141 when the radiometric grid matches the
amplitude's shape. -/
def gridMul (a b : Grid) : Grid := ⟨a.rows, a.cols, fun i j => a.data i j * b.data i j⟩

/-- Store of numpy arrays addressed by references, used to track which
arrays `main` mutates in place and which it allocates afresh. -/
structure Heap where
  store : Nat → Grid
  next : Nat

/-- In-place update of the array behind reference `r`. -/
def Heap.write (h : Heap) (r : Nat) (g : Grid) : Heap :=
  ⟨fun q => if q = r then g else h.store q, h.next⟩

/-- Allocation of a fresh array, returning its reference. -/
def Heap.alloc (h : Heap) (g : Grid) : Heap × Nat :=
  (⟨fun q => if q = h.next then g else h.store q, h.next + 1⟩, h.next)

/-- Array lifecycle of `main` (lines 117-141) over matching-shape grids: the
input amplitude, noise and radiometric arrays live at references 0, 1 and 2.
Line 132 (`cslc_amplitude_arr ** 2 - noise_correction_arr`) allocates a new
array and rebinds the name; line 133 (`arr[arr < 0.0] = 0.0`) mutates that
array in place; line 134 (`np.sqrt`) allocates again; line 141 (`*=`)
multiplies the current array in place.  Returns the final heap and the
reference the corrected result is bound to. -/
def mainArrayTrace (applyNoise applyRad : Bool) (amp noise rad : Grid) :
    Heap × Nat :=
  let h0 : Heap := ⟨fun q => if q = 0 then amp else if q = 1 then noise else rad, 3⟩
  let st1 : Heap × Nat :=
    if applyNoise then
      let a1 := Heap.alloc h0 (gridSub (npSquare (h0.store 0)) (h0.store 1))
      let h2 := Heap.write a1.1 a1.2 (npClampNegToZero (a1.1.store a1.2))
      Heap.alloc h2 (npSqrt (h2.store a1.2))
    else (h0, 0)
  if applyRad then
    (Heap.write st1.1 st1.2 (gridMul (st1.1.store st1.2) (st1.1.store 2)), st1.2)
  else st1

/-- Concrete CSLC product used to instantiate the entry-point theorems:
constant 1-by-1 amplitude, zero geotransform, EPSG 4326. -/
def fileFix : H5File :=
  ⟨fun _ => constGrid 1 1 1, fun _ => fun _ => 0, fun _ => 4326⟩

/-- Concrete static-layer product used to instantiate the entry-point
theorems: zero noise, unit radiometric factor on a 1-by-1 grid. -/
def staticFix : StaticFile := ⟨fun r c _ => constGrid r c 0, constGrid 1 1 1⟩

/-- Placeholder save call used as the default of `Option.getD`. -/
def dummySave : SaveCall := ⟨constGrid 1 1 1, fun _ => 0, PyVal.int 0⟩

/-- Broadcasting along an axis of extent `n` is the identity on in-range
indices. -/
theorem broadcastIdx_eq_of_lt (n i : Nat) (h : i < n) : broadcastIdx n i = i := by
  unfold broadcastIdx
  split <;> omega

/-- Replacing negative reals by zero agrees with clamping at zero. -/
theorem ite_neg_eq_max (x : ℝ) : (if x < 0 then (0 : ℝ) else x) = max x 0 := by
  rcases le_or_lt 0 x with h | h
  · rw [if_neg (not_lt.mpr h), max_eq_left h]
  · rw [if_pos h, max_eq_right h.le]

/-- C1: for every non-negative amplitude grid and noise grid of the same
shape, the noise-corrected amplitude at each pixel is
`sqrt (max (A[i,j]^2 - N[i,j]) 0)`: amplitude is squared, the noise is
subtracted elementwise, negative powers are clamped to exactly 0, and the
non-negative square root is taken. -/
theorem noise_correction_formula (amp noise rad : Grid) (i j : Nat)
    (hr : noise.rows = amp.rows) (hc : noise.cols = amp.cols)
    (_hnn : ∀ a b, 0 ≤ amp.data a b)
    (hi : i < amp.rows) (hj : j < amp.cols) :
    Except.map (fun g => g.data i j) (applyCorrections true false amp noise rad)
      = .ok (Real.sqrt (max (amp.data i j ^ 2 - noise.data i j) 0)) := by
  have hcompat : bcastCompat (npSquare amp) noise := by
    constructor
    · left; exact hr.symm
    · left; exact hc.symm
  have hsub : npSub (npSquare amp) noise
      = .ok ⟨max amp.rows noise.rows, max amp.cols noise.cols,
          fun i j =>
            amp.data (broadcastIdx amp.rows i) (broadcastIdx amp.cols j) ^ 2
              - noise.data (broadcastIdx noise.rows i) (broadcastIdx noise.cols j)⟩ := by
    unfold npSub npBroadcast
    rw [if_pos hcompat]
    rfl
  unfold applyCorrections
  rw [hsub]
  simp only [if_true, Bool.false_eq_true, if_false, npSqrt, npClampNegToZero, Except.map]
  rw [broadcastIdx_eq_of_lt amp.rows i hi, broadcastIdx_eq_of_lt amp.cols j hj,
    broadcastIdx_eq_of_lt noise.rows i (hr ▸ hi),
    broadcastIdx_eq_of_lt noise.cols j (hc ▸ hj),
    ite_neg_eq_max]

/-- Witness for C1 at amplitude 3, noise 5 on a 1-by-1 grid (a clamped
pixel: 9 - 5 is positive here, the clamped case is exercised in other
witnesses). -/
theorem noise_correction_formula_witness :
    Except.map (fun g => g.data 0 0)
        (applyCorrections true false (constGrid 1 1 3) (constGrid 1 1 5) (constGrid 1 1 1))
      = .ok (Real.sqrt (max ((constGrid 1 1 3).data 0 0 ^ 2 - (constGrid 1 1 5).data 0 0) 0)) :=
  noise_correction_formula (constGrid 1 1 3) (constGrid 1 1 5) (constGrid 1 1 1) 0 0
    rfl rfl (fun _ _ => by norm_num [constGrid]) (by decide) (by decide)

/-- C2: requesting both corrections equals running the complete
noise-correction step (squaring, subtraction, clamp and square root,
lines 131-134) first and then the radiometric multiplication (line 141) on
its result: noise correction strictly precedes normalization. -/
theorem noise_then_radiometric (amp noise rad : Grid) :
    applyCorrections true true amp noise rad
      = Except.bind (applyCorrections true false amp noise rad)
          (fun a1 => applyCorrections false true a1 noise rad) := by
  unfold applyCorrections
  cases h : npSub (npSquare amp) noise with
  | error e => simp [h, Except.map, Except.bind]
  | ok p => simp [h, Except.map, Except.bind]

/-- C3: when only radiometric normalization is requested, the output at every
pixel is the elementwise product of the amplitude and the radiometric factor
grid (line 141). -/
theorem radiometric_only_formula (amp noise rad : Grid) (i j : Nat)
    (hr : rad.rows = amp.rows) (hc : rad.cols = amp.cols)
    (hi : i < amp.rows) (hj : j < amp.cols) :
    Except.map (fun g => g.data i j) (applyCorrections false true amp noise rad)
      = .ok (amp.data i j * rad.data i j) := by
  have hcompat : inplaceCompat amp rad := ⟨Or.inl hr, Or.inl hc⟩
  unfold applyCorrections
  simp only [Bool.false_eq_true, if_false, if_true]
  unfold npImul
  rw [if_pos hcompat]
  simp only [Except.map]
  rw [broadcastIdx_eq_of_lt rad.rows i (hr ▸ hi), broadcastIdx_eq_of_lt rad.cols j (hc ▸ hj)]

/-- Witness for C3 at amplitude 3, factor 2 on a 1-by-1 grid. -/
theorem radiometric_only_formula_witness :
    Except.map (fun g => g.data 0 0)
        (applyCorrections false true (constGrid 1 1 3) (constGrid 1 1 0) (constGrid 1 1 2))
      = .ok ((constGrid 1 1 3).data 0 0 * (constGrid 1 1 2).data 0 0) :=
  radiometric_only_formula (constGrid 1 1 3) (constGrid 1 1 0) (constGrid 1 1 2) 0 0
    rfl rfl (by decide) (by decide)

/-- C10: the noise-correction step applies the square root exactly to the
grid produced by the clamp of line 133, and that grid is non-negative at
every pixel for every real-valued input, so the square root never sees a
negative radicand. -/
theorem sqrt_radicand_nonneg :
    (∀ amp noise rad : Grid,
        applyCorrections true false amp noise rad
          = Except.map (fun p => npSqrt (npClampNegToZero p)) (npSub (npSquare amp) noise))
      ∧ ∀ (p : Grid) (i j : Nat), 0 ≤ (npClampNegToZero p).data i j := by
  constructor
  · intro amp noise rad
    unfold applyCorrections
    cases h : npSub (npSquare amp) noise with
    | error e => simp [h, Except.map]
    | ok p => simp [h, Except.map]
  · intro p i j
    simp only [npClampNegToZero]
    rcases le_or_lt 0 (p.data i j) with h | h
    · rw [if_neg (not_lt.mpr h)]; exact h
    · rw [if_pos h]

/-- In-place multiplication keeps non-negativity of non-negative operands. -/
theorem npImul_nonneg (a b g : Grid) (h : npImul a b = .ok g)
    (ha : ∀ i j, 0 ≤ a.data i j) (hb : ∀ i j, 0 ≤ b.data i j) :
    ∀ i j, 0 ≤ g.data i j := by
  unfold npImul at h
  split at h
  · injection h with h'
    subst h'
    intro i j
    exact mul_nonneg (ha i j) (hb _ _)
  · exact absurd h (by simp)

/-- C8: for non-negative amplitude, noise and radiometric grids, every pixel
of the corrected amplitude is non-negative after any combination of the two
corrections. -/
theorem corrected_nonneg (an ar : Bool) (amp noise rad g : Grid)
    (hok : applyCorrections an ar amp noise rad = .ok g)
    (hamp : ∀ i j, 0 ≤ amp.data i j) (_hnoise : ∀ i j, 0 ≤ noise.data i j)
    (hrad : ∀ i j, 0 ≤ rad.data i j) :
    ∀ i j, 0 ≤ g.data i j := by
  have key : ∀ (a1 : Grid), (∀ i j, 0 ≤ a1.data i j) →
      (if ar then npImul a1 rad else .ok a1) = .ok g → ∀ i j, 0 ≤ g.data i j := by
    intro a1 ha1 h
    cases ar with
    | false =>
      simp only [Bool.false_eq_true, if_false, Except.ok.injEq] at h
      subst h
      exact ha1
    | true =>
      simp only [if_true] at h
      exact npImul_nonneg a1 rad g h ha1 hrad
  unfold applyCorrections at hok
  cases an with
  | false =>
    simp only [Bool.false_eq_true, if_false] at hok
    exact key amp hamp hok
  | true =>
    simp only [if_true] at hok
    cases h : npSub (npSquare amp) noise with
    | error e =>
      rw [h] at hok
      simp [Except.map] at hok
    | ok p =>
      rw [h] at hok
      simp only [Except.map] at hok
      exact key (npSqrt (npClampNegToZero p)) (fun i j => Real.sqrt_nonneg _) hok

/-- Witness for C8 with both corrections applied to constant 1-by-1 grids. -/
theorem corrected_nonneg_witness :
    0 ≤ (((applyCorrections true true (constGrid 1 1 2) (constGrid 1 1 1)
            (constGrid 1 1 1)).toOption.getD (constGrid 1 1 2)).data 0 0) :=
  corrected_nonneg true true (constGrid 1 1 2) (constGrid 1 1 1) (constGrid 1 1 1) _ rfl
    (fun _ _ => by norm_num [constGrid]) (fun _ _ => by norm_num [constGrid])
    (fun _ _ => by norm_num [constGrid]) 0 0

/-- C4 counterexample: a 1-by-2 noise grid against a 2-by-2 amplitude grid has
a different shape, yet the correction completes without raising: numpy
silently broadcasts the axis of extent 1 instead of rejecting the mismatch. -/
theorem shape_mismatch_silently_broadcasts :
    ((constGrid 1 2 1).rows, (constGrid 1 2 1).cols)
        ≠ ((constGrid 2 2 3).rows, (constGrid 2 2 3).cols)
      ∧ exceptIsOk (applyCorrections true false (constGrid 2 2 3) (constGrid 1 2 1)
          (constGrid 2 2 1)) = true := by
  constructor
  · decide
  · rfl

/-- C4 amended: the correction raises a shape-mismatch error exactly when the
grids cannot be broadcast together: for noise subtraction when the shapes are
not numpy broadcast-compatible, and for the in-place radiometric
multiplication when the factor does not broadcast to the amplitude's shape.
Shape-differing grids that are broadcast-compatible are silently broadcast. -/
theorem shape_incompatible_error (amp noise rad : Grid) :
    (¬ bcastCompat (npSquare amp) noise →
        applyCorrections true false amp noise rad = .error .shapeMismatch)
      ∧ (¬ inplaceCompat amp rad →
        applyCorrections false true amp noise rad = .error .shapeMismatch) := by
  constructor
  · intro h
    unfold applyCorrections npSub npBroadcast
    rw [if_neg h]
    simp [Except.map]
  · intro h
    unfold applyCorrections
    simp only [Bool.false_eq_true, if_false, if_true]
    unfold npImul
    rw [if_neg h]

/-- Witness for C4's amended statement: a 3-by-3 noise grid cannot be
broadcast against a 2-by-2 amplitude grid, and the correction raises. -/
theorem shape_incompatible_error_witness :
    ¬ bcastCompat (npSquare (constGrid 2 2 3)) (constGrid 3 3 1)
      ∧ applyCorrections true false (constGrid 2 2 3) (constGrid 3 3 1) (constGrid 2 2 1)
          = .error .shapeMismatch :=
  ⟨by decide,
    (shape_incompatible_error (constGrid 2 2 3) (constGrid 3 3 1) (constGrid 2 2 1)).1
      (by decide)⟩

/-- C5: the value `main` passes to `save_amplitude` as the `epsg_cslc`
argument is the geotransform returned by a second call to
`get_dataset_geotransform` (line 143), not an integer EPSG code. -/
theorem epsg_argument_is_geotransform (f : H5File) (s : StaticFile)
    (dataPath pol : String) (an ar : Bool) (sc : SaveCall)
    (h : (mainRun f s dataPath pol an ar).2 = some sc) :
    sc.epsgArg = PyVal.geotransform (get_dataset_geotransform f (dataPath ++ "/" ++ pol))
      ∧ ∀ n : ℤ, sc.epsgArg ≠ PyVal.int n := by
  simp only [mainRun] at h
  split at h
  · simp at h
  · split at h
    · simp at h
    · simp only [Option.some.injEq] at h
      subst h
      exact ⟨rfl, fun n hn => PyVal.noConfusion hn⟩

/-- Witness for C5 with both corrections enabled on concrete products. -/
theorem epsg_argument_is_geotransform_witness :
    ((mainRun fileFix staticFix "d" "VV" true true).2.getD dummySave).epsgArg
        = PyVal.geotransform (get_dataset_geotransform fileFix ("d" ++ "/" ++ "VV"))
      ∧ ∀ n : ℤ,
        ((mainRun fileFix staticFix "d" "VV" true true).2.getD dummySave).epsgArg
          ≠ PyVal.int n :=
  epsg_argument_is_geotransform fileFix staticFix "d" "VV" true true _ rfl

/-- C7: the geotransform read from the source dataset (lines 120-121) is the
one `main` passes to the writer, and `save_amplitude` sets exactly its
geotransform argument on the output raster (line 51), whatever corrections
were applied. -/
theorem geotransform_propagated (f : H5File) (s : StaticFile)
    (dataPath pol : String) (an ar : Bool) (sc : SaveCall)
    (h : (mainRun f s dataPath pol an ar).2 = some sc) :
    sc.geotransformArg = get_dataset_geotransform f (dataPath ++ "/" ++ pol)
      ∧ ∀ e : ℤ, (save_amplitude sc.arr sc.geotransformArg e).geotransform
          = get_dataset_geotransform f (dataPath ++ "/" ++ pol) := by
  simp only [mainRun] at h
  split at h
  · simp at h
  · split at h
    · simp at h
    · simp only [Option.some.injEq] at h
      subst h
      exact ⟨rfl, fun e => rfl⟩

/-- Witness for C7 with both corrections enabled on concrete products. -/
theorem geotransform_propagated_witness :
    ((mainRun fileFix staticFix "d" "VV" true true).2.getD dummySave).geotransformArg
        = get_dataset_geotransform fileFix ("d" ++ "/" ++ "VV")
      ∧ ∀ e : ℤ,
        (save_amplitude ((mainRun fileFix staticFix "d" "VV" true true).2.getD dummySave).arr
            ((mainRun fileFix staticFix "d" "VV" true true).2.getD dummySave).geotransformArg
            e).geotransform
          = get_dataset_geotransform fileFix ("d" ++ "/" ++ "VV") :=
  geotransform_propagated fileFix staticFix "d" "VV" true true _ rfl

/-- C9: with both corrections disabled, `main` returns at lines 113-115:
no data is read, the correction pipeline is never entered and no save call
is made. -/
theorem disabled_corrections_noop (f : H5File) (s : StaticFile)
    (dataPath pol : String) :
    mainRun f s dataPath pol false false = ([], none) := by
  unfold mainRun
  rw [if_pos ⟨rfl, rfl⟩]

/-- C6 counterexample: with noise correction off and radiometric
normalization on, line 141 multiplies the input amplitude array in place:
after the run the array behind the amplitude's reference holds 2 * 3 = 6
instead of the input value 2, and the result is that same reference, not a
newly allocated grid. -/
theorem inplace_mutation_counterexample :
    (mainArrayTrace false true (constGrid 1 1 2) (constGrid 1 1 0) (constGrid 1 1 3)).2 = 0
      ∧ ((mainArrayTrace false true (constGrid 1 1 2) (constGrid 1 1 0)
            (constGrid 1 1 3)).1.store 0).data 0 0 = 6
      ∧ (constGrid 1 1 2).data 0 0 = 2 := by
  refine ⟨rfl, ?_, rfl⟩
  show (2 : ℝ) * 3 = 6
  norm_num

/-- C6 amended: the noise and radiometric input arrays are never mutated;
when noise correction is applied the amplitude input is also left unchanged
and the result is a freshly allocated array; but when only radiometric
normalization is applied, the amplitude array itself is scaled in place and
returned, so the amplitude input is mutated and no new grid is allocated for
the result. -/
theorem mainArrayTrace_aliasing (an ar : Bool) (amp noise rad : Grid) :
    (mainArrayTrace an ar amp noise rad).1.store 1 = noise
      ∧ (mainArrayTrace an ar amp noise rad).1.store 2 = rad
      ∧ (an = true → (mainArrayTrace an ar amp noise rad).1.store 0 = amp
            ∧ (mainArrayTrace an ar amp noise rad).2 = 4)
      ∧ (an = false → ar = true → (mainArrayTrace an ar amp noise rad).2 = 0
            ∧ (mainArrayTrace an ar amp noise rad).1.store 0 = gridMul amp rad) := by
  cases an <;> cases ar <;>
    simp [mainArrayTrace, Heap.write, Heap.alloc]

/-- Witness for C6's amended statement: with noise correction on, the
amplitude input at reference 0 is unchanged and the result lives at the
fresh reference 4. -/
theorem mainArrayTrace_aliasing_witness :
    (mainArrayTrace true true (constGrid 1 1 2) (constGrid 1 1 0)
          (constGrid 1 1 3)).1.store 0 = constGrid 1 1 2
      ∧ (mainArrayTrace true true (constGrid 1 1 2) (constGrid 1 1 0)
          (constGrid 1 1 3)).2 = 4 :=
  (mainArrayTrace_aliasing true true (constGrid 1 1 2) (constGrid 1 1 0)
    (constGrid 1 1 3)).2.2.1 rfl

end CorrectCslcAmplitude
